import Mathlib

/-!
Shallow embedding of the aggregate registry of `eventhorizon` (src/aggregate.go).

The Go file defines:
  * `AggregateType` (a string),
  * the `Aggregate` interface (the registry only observes `AggregateType()`
    and `AggregateID()`; the remaining capabilities of the interface —
    versioning, command handling, event buffering — are never touched by the
    registry code and are opaque here),
  * a package-level map `aggregates : map[AggregateType]func(UUID) Aggregate`
    guarded by `aggregatesMu sync.RWMutex`,
  * `RegisterAggregate(factory)` which probes the factory once with a fresh
    UUID, panics on a nil probe, an empty type name, or a duplicate type
    name, and otherwise inserts the factory under the write lock,
  * `CreateAggregate(aggregateType, id)` which looks the factory up under the
    read lock and either returns `(factory(id), nil)` or
    `(nil, ErrAggregateNotRegistered)`.

Go `nil` interface values are modelled with `Option`; a Go panic is modelled
as an explicit `RegisterPanic` outcome; the package-level map is passed as an
explicit `Registry` value and `RegisterAggregate` returns the post-state of
the map.  `NewUUID()` is an external identifier-generation facility (not part
of this repository's source), so the freshly generated probe identifier is
taken as an explicit argument `probeId`.
-/

namespace EventHorizon

/-- `UUID` is an opaque identifier; the registry never inspects it, so it is
modelled as a natural number. -/
abbrev UUID := Nat

/-- Go: `type AggregateType string`. -/
abbrev AggregateType := String

/-- The part of the `Aggregate` interface the registry observes: the
`AggregateType()` and `AggregateID()` accessors. -/
structure Aggregate where
  aggregateType : AggregateType
  aggregateID : UUID
deriving DecidableEq, Repr

/-- Go: `func(UUID) Aggregate`; the returned interface value may be nil. -/
abbrev Factory := UUID → Option Aggregate

/-- Go: `map[AggregateType]func(UUID) Aggregate`, as a lookup function. -/
abbrev Registry := AggregateType → Option Factory

/-- Go: `var aggregates = make(map[AggregateType]func(UUID) Aggregate)`. -/
def emptyRegistry : Registry := fun _ => none

/-- Map insertion `aggregates[aggregateType] = factory`. -/
def insertReg (reg : Registry) (t : AggregateType) (f : Factory) : Registry :=
  fun t' => if t' = t then some f else reg t'

/-- Go: `var ErrAggregateNotRegistered = errors.New("aggregate not registered")`,
the only error value the registry returns. -/
inductive EhError where
  | errAggregateNotRegistered
deriving DecidableEq, Repr

/-- Go `CreateAggregate` (src/aggregate.go:98-105): under the read lock,
`if factory, ok := aggregates[aggregateType]; ok { return factory(id), nil };
return nil, ErrAggregateNotRegistered`.  The result is the Go pair
`(Aggregate, error)`, both components nilable. -/
def CreateAggregate (reg : Registry) (aggregateType : AggregateType) (id : UUID) :
    Option Aggregate × Option EhError :=
  match reg aggregateType with
  | some factory => (factory id, none)
  | none => (none, some EhError.errAggregateNotRegistered)

/-- The three panics `RegisterAggregate` can raise (src/aggregate.go:81,85,91). -/
inductive RegisterPanic where
  | nilAggregate
  | emptyAggregateType
  | duplicateType (t : AggregateType)
deriving DecidableEq, Repr

/-- The panic messages, verbatim from src/aggregate.go (the `%q` verb of the
duplicate message is modelled as plain double-quoting). -/
def panicMessage : RegisterPanic → String
  | RegisterPanic.nilAggregate => "eventhorizon: created aggregate is nil"
  | RegisterPanic.emptyAggregateType => "eventhorizon: attempt to register empty aggregate type"
  | RegisterPanic.duplicateType t => "eventhorizon: registering duplicate types for \"" ++ t ++ "\""

/-- `sub` occurs contiguously inside `s`. -/
def strContainsSubstr (s sub : String) : Prop := sub.data <:+: s.data

instance (s sub : String) : Decidable (strContainsSubstr s sub) :=
  inferInstanceAs (Decidable (sub.data <:+: s.data))

/-- Observable events of one `RegisterAggregate` call, in execution order:
the factory invocation, the two validation checks, the write-lock critical
section (acquire, duplicate check, insert, release — the deferred unlock also
runs when the duplicate panic fires), and the raised panic if any. -/
inductive RegEvent where
  | invokeFactory (id : UUID)
  | checkNil
  | checkEmptyType
  | lockAcquire
  | dupCheck
  | insert (t : AggregateType)
  | lockRelease
  | panicked (e : RegisterPanic)
deriving DecidableEq, Repr

/-- Whether a `RegEvent` is a factory invocation. -/
def RegEvent.isInvoke : RegEvent → Bool
  | RegEvent.invokeFactory _ => true
  | _ => false

/-- Outcome of one `RegisterAggregate` call: the event trace, the map after
the call (unchanged when a panic fires, since every panic precedes the
insertion), and the panic raised, if any. -/
structure RegisterResult where
  trace : List RegEvent
  post : Registry
  panic : Option RegisterPanic

/-- Go `RegisterAggregate` (src/aggregate.go:74-94), step by step:
`aggregate := factory(NewUUID())`; `if aggregate == nil { panic(...) }`;
`aggregateType := aggregate.AggregateType()`;
`if aggregateType == AggregateType("") { panic(...) }`;
`aggregatesMu.Lock(); defer aggregatesMu.Unlock()`;
`if _, ok := aggregates[aggregateType]; ok { panic(...) }`;
`aggregates[aggregateType] = factory`. -/
def RegisterAggregate (probeId : UUID) (factory : Factory) (reg : Registry) :
    RegisterResult :=
  match factory probeId with
  | none =>
      { trace := [RegEvent.invokeFactory probeId, RegEvent.checkNil,
                  RegEvent.panicked RegisterPanic.nilAggregate],
        post := reg,
        panic := some RegisterPanic.nilAggregate }
  | some aggregate =>
      let aggregateType := aggregate.aggregateType
      if aggregateType = "" then
        { trace := [RegEvent.invokeFactory probeId, RegEvent.checkNil,
                    RegEvent.checkEmptyType,
                    RegEvent.panicked RegisterPanic.emptyAggregateType],
          post := reg,
          panic := some RegisterPanic.emptyAggregateType }
      else
        match reg aggregateType with
        | some _ =>
            { trace := [RegEvent.invokeFactory probeId, RegEvent.checkNil,
                        RegEvent.checkEmptyType, RegEvent.lockAcquire,
                        RegEvent.dupCheck,
                        RegEvent.panicked (RegisterPanic.duplicateType aggregateType),
                        RegEvent.lockRelease],
              post := reg,
              panic := some (RegisterPanic.duplicateType aggregateType) }
        | none =>
            { trace := [RegEvent.invokeFactory probeId, RegEvent.checkNil,
                        RegEvent.checkEmptyType, RegEvent.lockAcquire,
                        RegEvent.dupCheck, RegEvent.insert aggregateType,
                        RegEvent.lockRelease],
              post := insertReg reg aggregateType factory,
              panic := none }

/-- C2: for every type name with no registered constructor,
`CreateAggregate(type name, id)` returns no instance together with the
sentinel error `ErrAggregateNotRegistered`.  (In this embedding
`CreateAggregate` is a total function, so it can neither panic nor crash.) -/
theorem createAggregate_unregistered (reg : Registry) (t : AggregateType) (id : UUID)
    (h : reg t = none) :
    CreateAggregate reg t id = (none, some EhError.errAggregateNotRegistered) := by
  simp [CreateAggregate, h]

/-- Witness for `createAggregate_unregistered`: the empty registry has no
factory for `"Order"`. -/
theorem createAggregate_unregistered_witness :
    emptyRegistry "Order" = none ∧
      CreateAggregate emptyRegistry "Order" 42 =
        (none, some EhError.errAggregateNotRegistered) :=
  ⟨rfl, createAggregate_unregistered emptyRegistry "Order" 42 rfl⟩

/-- C4: `RegisterAggregate` panics whenever the probe instance produced by the
factory is nil, and whenever the probe's reported type name is the empty
string. -/
theorem registerAggregate_invalid_probe_panics
    (probeId : UUID) (factory : Factory) (reg : Registry) :
    (factory probeId = none →
      (RegisterAggregate probeId factory reg).panic = some RegisterPanic.nilAggregate) ∧
    (∀ a, factory probeId = some a → a.aggregateType = "" →
      (RegisterAggregate probeId factory reg).panic = some RegisterPanic.emptyAggregateType) := by
  constructor
  · intro h
    simp [RegisterAggregate, h]
  · intro a ha he
    simp [RegisterAggregate, ha, he]

/-- Witness for `registerAggregate_invalid_probe_panics`: a factory returning
nil panics with the nil-aggregate message, and a factory whose probe reports
an empty type name panics with the empty-type message. -/
theorem registerAggregate_invalid_probe_panics_witness :
    ((RegisterAggregate 0 (fun _ => none) emptyRegistry).panic =
        some RegisterPanic.nilAggregate) ∧
    ((RegisterAggregate 0 (fun i => some { aggregateType := "", aggregateID := i })
        emptyRegistry).panic = some RegisterPanic.emptyAggregateType) :=
  ⟨(registerAggregate_invalid_probe_panics 0 (fun _ => none) emptyRegistry).1 rfl,
   (registerAggregate_invalid_probe_panics 0
      (fun i => some { aggregateType := "", aggregateID := i }) emptyRegistry).2
      { aggregateType := "", aggregateID := 0 } rfl rfl⟩

/-- C3: registering a second factory whose probe reports a type name already
present in the registry panics, whether or not the two factories are equal;
when the already-present type name is nonempty (as every name inserted by
`RegisterAggregate` is) the panic is the duplicate-types panic naming it. -/
theorem registerAggregate_duplicate_panics
    (probeId : UUID) (g : Factory) (reg : Registry) (a : Aggregate) (f : Factory)
    (hprobe : g probeId = some a) (hdup : reg a.aggregateType = some f) :
    ((RegisterAggregate probeId g reg).panic).isSome = true ∧
    (a.aggregateType ≠ "" →
      (RegisterAggregate probeId g reg).panic =
        some (RegisterPanic.duplicateType a.aggregateType)) := by
  by_cases he : a.aggregateType = ""
  · constructor
    · simp [RegisterAggregate, hprobe, he]
    · intro h
      exact absurd he h
  · constructor
    · simp [RegisterAggregate, hprobe, he, hdup]
    · intro _
      simp [RegisterAggregate, hprobe, he, hdup]

/-- Witness for `registerAggregate_duplicate_panics`: after `"Order"` is
registered, registering a different factory probing as `"Order"` panics with
the duplicate-types panic for `"Order"`. -/
theorem registerAggregate_duplicate_panics_witness :
    ((fun i => some { aggregateType := "Order", aggregateID := i + 1 }) : Factory) 0 =
        some { aggregateType := "Order", aggregateID := 1 } ∧
    (insertReg emptyRegistry "Order" (fun i => some { aggregateType := "Order", aggregateID := i }))
        "Order" = some (fun i => some { aggregateType := "Order", aggregateID := i }) ∧
    ((RegisterAggregate 0 (fun i => some { aggregateType := "Order", aggregateID := i + 1 })
        (insertReg emptyRegistry "Order"
          (fun i => some { aggregateType := "Order", aggregateID := i }))).panic).isSome = true ∧
    ((RegisterAggregate 0 (fun i => some { aggregateType := "Order", aggregateID := i + 1 })
        (insertReg emptyRegistry "Order"
          (fun i => some { aggregateType := "Order", aggregateID := i }))).panic =
      some (RegisterPanic.duplicateType "Order")) := by
  refine ⟨rfl, by simp [insertReg], ?_, ?_⟩
  · exact (registerAggregate_duplicate_panics 0
      (fun i => some { aggregateType := "Order", aggregateID := i + 1 })
      (insertReg emptyRegistry "Order"
        (fun i => some { aggregateType := "Order", aggregateID := i }))
      { aggregateType := "Order", aggregateID := 1 }
      (fun i => some { aggregateType := "Order", aggregateID := i })
      rfl (by simp [insertReg])).1
  · exact (registerAggregate_duplicate_panics 0
      (fun i => some { aggregateType := "Order", aggregateID := i + 1 })
      (insertReg emptyRegistry "Order"
        (fun i => some { aggregateType := "Order", aggregateID := i }))
      { aggregateType := "Order", aggregateID := 1 }
      (fun i => some { aggregateType := "Order", aggregateID := i })
      rfl (by simp [insertReg])).2 (by simp)

/-- C6: `RegisterAggregate` is atomic on failure — whenever it panics (nil
probe, empty type name, or duplicate type name) the registry map is left
exactly as it was. -/
theorem registerAggregate_atomic_on_failure
    (probeId : UUID) (factory : Factory) (reg : Registry) (e : RegisterPanic)
    (h : (RegisterAggregate probeId factory reg).panic = some e) :
    (RegisterAggregate probeId factory reg).post = reg := by
  unfold RegisterAggregate at h ⊢
  cases hf : factory probeId with
  | none => simp
  | some a =>
      simp only [hf] at h ⊢
      by_cases he : a.aggregateType = ""
      · simp [he]
      · simp only [he, if_neg, ite_false] at h ⊢
        cases hl : reg a.aggregateType with
        | none => simp [hl] at h
        | some f => simp [hl]

/-- Witness for `registerAggregate_atomic_on_failure`: the nil-probe panic
leaves the empty registry empty. -/
theorem registerAggregate_atomic_on_failure_witness :
    (RegisterAggregate 0 (fun _ => none) emptyRegistry).panic =
        some RegisterPanic.nilAggregate ∧
    (RegisterAggregate 0 (fun _ => none) emptyRegistry).post = emptyRegistry :=
  ⟨rfl, registerAggregate_atomic_on_failure 0 (fun _ => none) emptyRegistry
    RegisterPanic.nilAggregate rfl⟩

/-- A uniform demo factory whose instances report type `"Order"` and the
identifier they were created with. -/
def orderFactory : Factory :=
  fun i => some { aggregateType := "Order", aggregateID := i }

/-- C1: after a factory has been successfully registered (its probe reported
type name `probe.aggregateType`), `CreateAggregate` on that name returns a
nil error together with exactly `factory id`; and when the factory is uniform
(every instance it returns reports the registered type name and the
identifier it was called with), the returned instance's `AggregateType()` is
the registered name and its `AggregateID()` is `id`. -/
theorem createAggregate_after_register
    (probeId : UUID) (factory : Factory) (reg : Registry) (probe : Aggregate) (id : UUID)
    (hprobe : factory probeId = some probe)
    (hok : (RegisterAggregate probeId factory reg).panic = none) :
    (RegisterAggregate probeId factory reg).post probe.aggregateType = some factory ∧
    CreateAggregate ((RegisterAggregate probeId factory reg).post) probe.aggregateType id =
      (factory id, none) ∧
    ((∀ i a, factory i = some a →
        a.aggregateType = probe.aggregateType ∧ a.aggregateID = i) →
      ∀ a, (CreateAggregate ((RegisterAggregate probeId factory reg).post)
              probe.aggregateType id).1 = some a →
        a.aggregateType = probe.aggregateType ∧ a.aggregateID = id) := by
  have hpost : (RegisterAggregate probeId factory reg).post probe.aggregateType =
      some factory := by
    unfold RegisterAggregate at hok ⊢
    rw [hprobe] at hok ⊢
    by_cases he : probe.aggregateType = ""
    · simp [he] at hok
    · cases hl : reg probe.aggregateType with
      | some g => simp [he, hl] at hok
      | none => simp [he, hl, insertReg]
  refine ⟨hpost, by simp [CreateAggregate, hpost], ?_⟩
  intro huni a ha
  simp only [CreateAggregate, hpost] at ha
  have := huni id a ha
  exact ⟨this.1, this.2⟩

/-- Witness for `createAggregate_after_register`: registering `orderFactory`
into the empty registry and creating an `"Order"` with id 42. -/
theorem createAggregate_after_register_witness :
    orderFactory 0 = some { aggregateType := "Order", aggregateID := 0 } ∧
    (RegisterAggregate 0 orderFactory emptyRegistry).panic = none ∧
    ((RegisterAggregate 0 orderFactory emptyRegistry).post "Order" = some orderFactory ∧
     CreateAggregate ((RegisterAggregate 0 orderFactory emptyRegistry).post) "Order" 42 =
       (orderFactory 42, none) ∧
     ((∀ i a, orderFactory i = some a → a.aggregateType = "Order" ∧ a.aggregateID = i) →
       ∀ a, (CreateAggregate ((RegisterAggregate 0 orderFactory emptyRegistry).post)
               "Order" 42).1 = some a →
         a.aggregateType = "Order" ∧ a.aggregateID = 42)) :=
  ⟨rfl, by decide,
   createAggregate_after_register 0 orderFactory emptyRegistry
     { aggregateType := "Order", aggregateID := 0 } 42 rfl (by decide)⟩

/-- A call against the registry: a registration or a creation. -/
inductive Op where
  | register (probeId : UUID) (factory : Factory)
  | create (t : AggregateType) (id : UUID)

/-- The registry map after one call.  `CreateAggregate` only reads the map
under the read lock and returns no new map, so a `create` call leaves the map
unchanged; a `register` call leaves `RegisterAggregate`'s post-state. -/
def applyOp (reg : Registry) : Op → Registry
  | Op.register probeId factory => (RegisterAggregate probeId factory reg).post
  | Op.create _ _ => reg

/-- Helper: a `RegisterAggregate` call never disturbs an existing binding —
it inserts only under a type name that was unbound. -/
theorem registerAggregate_preserves_binding (probeId : UUID) (factory : Factory)
    (reg : Registry) (t : AggregateType) (f : Factory) (h : reg t = some f) :
    (RegisterAggregate probeId factory reg).post t = some f := by
  unfold RegisterAggregate
  cases hf : factory probeId with
  | none => simpa using h
  | some a =>
      by_cases he : a.aggregateType = ""
      · simpa [he] using h
      · cases hl : reg a.aggregateType with
        | some g => simpa [he, hl] using h
        | none =>
            simp only [he, hl, ite_false, insertReg]
            have ht : t ≠ a.aggregateType := by
              intro ht
              rw [ht, hl] at h
              cases h
            simp [ht, h]

/-- C5: once a type name is bound to a factory, every later lookup after any
sequence of `RegisterAggregate` / `CreateAggregate` calls still yields that
same factory — registrations never overwrite or remove existing bindings and
creations never mutate the map. -/
theorem registry_binding_persistent (ops : List Op) (reg : Registry)
    (t : AggregateType) (f : Factory) (h : reg t = some f) :
    (ops.foldl applyOp reg) t = some f := by
  induction ops generalizing reg with
  | nil => simpa using h
  | cons op rest ih =>
      cases op with
      | register probeId factory =>
          exact ih _ (registerAggregate_preserves_binding probeId factory reg t f h)
      | create t' id => exact ih _ h

/-- Witness for `registry_binding_persistent`: after a creation and two
further registrations (one failing, one succeeding) the original `"Order"`
binding is intact. -/
theorem registry_binding_persistent_witness :
    (insertReg emptyRegistry "Order" orderFactory) "Order" = some orderFactory ∧
    ([Op.create "Order" 7, Op.register 1 (fun _ => none),
      Op.register 2 (fun i => some { aggregateType := "Invoice", aggregateID := i })].foldl
        applyOp (insertReg emptyRegistry "Order" orderFactory)) "Order" =
      some orderFactory :=
  ⟨by simp [insertReg],
   registry_binding_persistent _ _ "Order" orderFactory (by simp [insertReg])⟩

/-- C7: in every `RegisterAggregate` call the factory is invoked exactly once,
as the very first step (with the synthetic probe identifier), followed by the
nil check; the lock acquisition, when it happens, comes only after the nil
and empty-type checks — so the factory is never invoked while the lock is
held; and the map afterwards stores at most the factory itself (never the
probe): every binding is either the old one or the registered factory. -/
theorem registerAggregate_probe_before_lock
    (probeId : UUID) (factory : Factory) (reg : Registry) :
    ((RegisterAggregate probeId factory reg).trace.take 2 =
        [RegEvent.invokeFactory probeId, RegEvent.checkNil]) ∧
    ((RegisterAggregate probeId factory reg).trace.filter RegEvent.isInvoke =
        [RegEvent.invokeFactory probeId]) ∧
    (RegEvent.lockAcquire ∈ (RegisterAggregate probeId factory reg).trace →
      (RegisterAggregate probeId factory reg).trace.take 4 =
        [RegEvent.invokeFactory probeId, RegEvent.checkNil,
         RegEvent.checkEmptyType, RegEvent.lockAcquire]) ∧
    (∀ t', (RegisterAggregate probeId factory reg).post t' = reg t' ∨
      (RegisterAggregate probeId factory reg).post t' = some factory) := by
  unfold RegisterAggregate
  cases hf : factory probeId with
  | none => simp [RegEvent.isInvoke, List.filter]
  | some a =>
      by_cases he : a.aggregateType = ""
      · simp [he, RegEvent.isInvoke, List.filter]
      · cases hl : reg a.aggregateType with
        | some g => simp [he, hl, RegEvent.isInvoke, List.filter]
        | none =>
            refine ⟨by simp [he, hl], by simp [he, hl, RegEvent.isInvoke, List.filter],
              by simp [he, hl], ?_⟩
            intro t'
            simp only [he, hl, ite_false, insertReg]
            by_cases ht : t' = a.aggregateType
            · right
              simp [ht]
            · left
              simp [ht]

/-- Witness for `registerAggregate_probe_before_lock`: the trace of a
successful registration of `orderFactory`. -/
theorem registerAggregate_probe_before_lock_witness :
    ((RegisterAggregate 5 orderFactory emptyRegistry).trace.take 2 =
        [RegEvent.invokeFactory 5, RegEvent.checkNil]) ∧
    ((RegisterAggregate 5 orderFactory emptyRegistry).trace.filter RegEvent.isInvoke =
        [RegEvent.invokeFactory 5]) ∧
    (RegEvent.lockAcquire ∈ (RegisterAggregate 5 orderFactory emptyRegistry).trace →
      (RegisterAggregate 5 orderFactory emptyRegistry).trace.take 4 =
        [RegEvent.invokeFactory 5, RegEvent.checkNil,
         RegEvent.checkEmptyType, RegEvent.lockAcquire]) ∧
    (∀ t', (RegisterAggregate 5 orderFactory emptyRegistry).post t' = emptyRegistry t' ∨
      (RegisterAggregate 5 orderFactory emptyRegistry).post t' = some orderFactory) :=
  registerAggregate_probe_before_lock 5 orderFactory emptyRegistry

/-- `p` is a prefix of `s`. -/
def strStartsWith (s p : String) : Prop := p.data <+: s.data

instance (s p : String) : Decidable (strStartsWith s p) :=
  inferInstanceAs (Decidable (p.data <+: s.data))

/-- A string contains any substring it was literally assembled around. -/
theorem strContains_append (s₁ sub s₂ : String) :
    strContainsSubstr (s₁ ++ sub ++ s₂) sub :=
  ⟨s₁.data, s₂.data, by simp⟩

/-- Every string contains the empty string. -/
theorem strContains_empty (s : String) : strContainsSubstr s "" :=
  ⟨[], s.data, by simp⟩

/-- Prefixes survive appending on the right. -/
theorem strStartsWith_append (s₁ s₂ p : String) (h : strStartsWith s₁ p) :
    strStartsWith (s₁ ++ s₂) p := by
  unfold strStartsWith at h ⊢
  rw [String.data_append]
  exact h.trans (List.prefix_append _ _)

/-- C8: every configuration panic raised at registration time carries a
descriptive message — it starts with the diagnostic prefix `"eventhorizon: "`
(so it is never empty) — and that message contains the offending aggregate
type name reported by the factory's probe whenever the probe exists (for a
nil probe no aggregate, and hence no type name, exists to be named). -/
theorem configuration_panic_message_descriptive
    (probeId : UUID) (factory : Factory) (reg : Registry) (e : RegisterPanic)
    (h : (RegisterAggregate probeId factory reg).panic = some e) :
    strStartsWith (panicMessage e) "eventhorizon: " ∧
    (∀ a, factory probeId = some a →
      strContainsSubstr (panicMessage e) a.aggregateType) := by
  unfold RegisterAggregate at h
  cases hf : factory probeId with
  | none =>
      rw [hf] at h
      simp only [Option.some.injEq] at h
      subst h
      exact ⟨by decide, fun a ha => Option.noConfusion ha⟩
  | some a0 =>
      rw [hf] at h
      by_cases he : a0.aggregateType = ""
      · simp only [he, ite_true, Option.some.injEq] at h
        subst h
        refine ⟨by decide, ?_⟩
        intro a ha
        have haa : a = a0 := (Option.some.inj ha).symm
        rw [haa, he]
        exact strContains_empty _
      · cases hl : reg a0.aggregateType with
        | some g =>
            simp only [he, ite_false, hl, Option.some.injEq] at h
            subst h
            constructor
            · exact strStartsWith_append _ "\"" _
                (strStartsWith_append _ a0.aggregateType _ (by decide))
            · intro a ha
              have haa : a = a0 := (Option.some.inj ha).symm
              rw [haa]
              exact strContains_append _ _ _
        | none =>
            simp only [he, ite_false, hl] at h
            exact Option.noConfusion h

/-- Witness for `configuration_panic_message_descriptive`: the duplicate
panic for `"Order"` starts with the diagnostic prefix and names `"Order"`. -/
theorem configuration_panic_message_descriptive_witness :
    ((RegisterAggregate 0 orderFactory
        (insertReg emptyRegistry "Order" orderFactory)).panic =
      some (RegisterPanic.duplicateType "Order")) ∧
    (strStartsWith (panicMessage (RegisterPanic.duplicateType "Order")) "eventhorizon: " ∧
     (∀ a, orderFactory 0 = some a →
       strContainsSubstr (panicMessage (RegisterPanic.duplicateType "Order"))
         a.aggregateType)) :=
  ⟨by decide,
   configuration_panic_message_descriptive 0 orderFactory
     (insertReg emptyRegistry "Order" orderFactory)
     (RegisterPanic.duplicateType "Order") (by decide)⟩

/-- A factory that returns an instance only for the probe identifier 0 and a
nil interface value for every other identifier. -/
def partialFactory : Factory :=
  fun i => if i = 0 then some { aggregateType := "Partial", aggregateID := i } else none

/-- C10: registration probes only the single synthetic identifier and
creation does not re-check the factory's result: `partialFactory` registers
successfully (its probe at id 0 is non-nil), yet `CreateAggregate` at id 1
returns a nil instance together with a nil error. -/
theorem createAggregate_no_validation :
    (RegisterAggregate 0 partialFactory emptyRegistry).panic = none ∧
    CreateAggregate (RegisterAggregate 0 partialFactory emptyRegistry).post "Partial" 1 =
      (none, none) := by
  constructor
  · decide
  · decide

/-- Modelled from the spec: the state of the registry's read-write lock.
`aggregatesMu sync.RWMutex` (src/aggregate.go:64) is Go library code, not
part of this repository's source; per §5 of the spec, registration requires
exclusive access (write lock) while creation requires only shared access
(read lock), so acquiring the read side is enabled whenever no writer holds
the lock, regardless of how many other readers hold it. -/
structure LockState where
  readers : Nat
  writer : Bool
deriving DecidableEq, Repr

/-- Program counter of one in-flight `CreateAggregate` call: before
`RLock()`, inside the read-locked section, or returned with its result. -/
inductive CreatePc where
  | start
  | locked
  | done (result : Option Aggregate × Option EhError)
deriving DecidableEq, Repr

/-- One thread running `CreateAggregate ty tid`. -/
structure CreateThread where
  ty : AggregateType
  tid : UUID
  pc : CreatePc
deriving DecidableEq, Repr

/-- The shared state: the registry map (registration is complete, so no
writer exists and the map is fixed), the lock, and the in-flight threads. -/
structure CreateSystem where
  reg : Registry
  lock : LockState
  threads : List CreateThread

/-- Interleaving semantics of concurrent `CreateAggregate` calls
(src/aggregate.go:98-105): a thread at `start` takes the read lock — enabled
exactly when no writer holds the lock — and a thread inside the read-locked
section performs the lookup, releases the read lock, and returns
`(factory(id), nil)` or `(nil, ErrAggregateNotRegistered)`; this step is
always enabled. -/
inductive CreateStep : CreateSystem → CreateSystem → Prop where
  | acquire {s : CreateSystem} {i : Nat} {th : CreateThread}
      (hget : s.threads.get? i = some th) (hpc : th.pc = CreatePc.start)
      (hw : s.lock.writer = false) :
      CreateStep s
        { reg := s.reg,
          lock := { readers := s.lock.readers + 1, writer := s.lock.writer },
          threads := s.threads.set i { th with pc := CreatePc.locked } }
  | finish {s : CreateSystem} {i : Nat} {th : CreateThread}
      (hget : s.threads.get? i = some th) (hpc : th.pc = CreatePc.locked) :
      CreateStep s
        { reg := s.reg,
          lock := { readers := s.lock.readers - 1, writer := s.lock.writer },
          threads := s.threads.set i
            { th with pc := CreatePc.done (CreateAggregate s.reg th.ty th.tid) } }

/-- The system at the moment the concurrent creations begin: lock free, every
thread about to call `CreateAggregate`. -/
def initSystem (reg : Registry) (ths : List (AggregateType × UUID)) : CreateSystem :=
  { reg := reg,
    lock := { readers := 0, writer := false },
    threads := ths.map fun p => { ty := p.1, tid := p.2, pc := CreatePc.start } }

/-- States reachable by interleaving the threads' steps. -/
inductive Reachable (s₀ : CreateSystem) : CreateSystem → Prop where
  | refl : Reachable s₀ s₀
  | step {s s' : CreateSystem} : Reachable s₀ s → CreateStep s s' → Reachable s₀ s'

/-- Helper invariant: while only creations run, the map never changes, no
writer ever holds the lock, and every finished thread got a nil error. -/
theorem createSystem_invariant (reg : Registry) (ths : List (AggregateType × UUID))
    (hreg : ∀ p ∈ ths, (reg p.1).isSome = true)
    (s : CreateSystem) (hs : Reachable (initSystem reg ths) s) :
    s.reg = reg ∧ s.lock.writer = false ∧
      ∀ th ∈ s.threads, (reg th.ty).isSome = true ∧
        ∀ r, th.pc = CreatePc.done r → r.2 = none := by
  induction hs with
  | refl =>
      refine ⟨rfl, rfl, ?_⟩
      intro th hth
      simp only [initSystem, List.mem_map] at hth
      obtain ⟨p, hp, hfp⟩ := hth
      subst hfp
      exact ⟨hreg p hp, fun r hcon => CreatePc.noConfusion hcon⟩
  | step hs' hstep ih =>
      obtain ⟨hr, hw, hth⟩ := ih
      cases hstep with
      | acquire hget hpc hw' =>
          refine ⟨hr, hw, ?_⟩
          intro th' hth'
          rcases List.mem_or_eq_of_mem_set hth' with hmem | heq
          · exact hth th' hmem
          · subst heq
            have hmem := List.get?_mem hget
            exact ⟨(hth _ hmem).1, fun r hcon => CreatePc.noConfusion hcon⟩
      | finish hget hpc =>
          refine ⟨hr, hw, ?_⟩
          intro th' hth'
          rcases List.mem_or_eq_of_mem_set hth' with hmem | heq
          · exact hth th' hmem
          · subst heq
            have hmem := List.get?_mem hget
            refine ⟨(hth _ hmem).1, ?_⟩
            intro r hcon
            have hres := CreatePc.done.inj hcon
            have hsome := (hth _ hmem).1
            rw [← hres, hr]
            cases hf : reg _ with
            | none => rw [hf] at hsome; cases hsome
            | some f => simp [CreateAggregate, hf]

/-- C9: with every thread's type name already registered, concurrent
`CreateAggregate` calls never block each other and all succeed: in every
reachable interleaving state no writer holds the lock, every unfinished
thread can take its next step immediately (read-lock acquisition is enabled
because registration's exclusive lock is not held, and the read-locked
lookup step is always enabled), and every finished thread has returned with
a nil error. -/
theorem concurrent_creates_nonblocking
    (reg : Registry) (ths : List (AggregateType × UUID))
    (hreg : ∀ p ∈ ths, (reg p.1).isSome = true)
    (s : CreateSystem) (hs : Reachable (initSystem reg ths) s) :
    s.lock.writer = false ∧
    (∀ i th, s.threads.get? i = some th → (∀ r, th.pc ≠ CreatePc.done r) →
      ∃ s', CreateStep s s') ∧
    (∀ th ∈ s.threads, ∀ r, th.pc = CreatePc.done r → r.2 = none) := by
  obtain ⟨hr, hw, hth⟩ := createSystem_invariant reg ths hreg s hs
  refine ⟨hw, ?_, ?_⟩
  · intro i th hget hnd
    cases hpc : th.pc with
    | start => exact ⟨_, CreateStep.acquire hget hpc hw⟩
    | locked => exact ⟨_, CreateStep.finish hget hpc⟩
    | done r => exact absurd hpc (hnd r)
  · intro th hmem r hdone
    exact (hth th hmem).2 r hdone

/-- Registry holding only `"Order" ↦ orderFactory`. -/
def demoReg : Registry := insertReg emptyRegistry "Order" orderFactory

/-- Two concurrent creations of the same registered type. -/
def demoThreads : List (AggregateType × UUID) := [("Order", 42), ("Order", 7)]

/-- Witness for `concurrent_creates_nonblocking`: two concurrent creations of
the registered `"Order"` type, at the initial interleaving state. -/
theorem concurrent_creates_nonblocking_witness :
    (∀ p ∈ demoThreads, (demoReg p.1).isSome = true) ∧
    ((initSystem demoReg demoThreads).lock.writer = false ∧
     (∀ i th, (initSystem demoReg demoThreads).threads.get? i = some th →
        (∀ r, th.pc ≠ CreatePc.done r) →
        ∃ s', CreateStep (initSystem demoReg demoThreads) s') ∧
     (∀ th ∈ (initSystem demoReg demoThreads).threads, ∀ r,
        th.pc = CreatePc.done r → r.2 = none)) :=
  ⟨by decide,
   concurrent_creates_nonblocking demoReg demoThreads (by decide) _ Reachable.refl⟩

end EventHorizon
